import Mathlib

/-!
Shallow embedding of `src/libwasmvm/src/dynamic_link.rs` (the dynamic-link
core of wasmvm): the FFI entry points `call_callable_point` and
`validate_interface`, their worker functions `do_call_callable_point` and
`do_validate_interface`, and the marshaling helpers they use.

Byte buffers are `List Nat`; a nullable FFI byte view (`ByteSliceView`) is
`Option Bytes`; a nullable out-slot is a `Bool` presence flag plus a recorded
final value.  External collaborators (the serde codec, the module cache, the
execution engine) are parameters gathered in `Ext` / `VExt`; everything the
Rust file itself does is translated directly.
-/

set_option maxRecDepth 10000

namespace Wasmvm

abbrev Bytes := List Nat

/-- A mibi (mega binary), `MI` of the source. -/
def MI : Nat := 1024 * 1024

/-- Limit of the sum of region lengths of dynamic link's output,
`MAX_REGIONS_LENGTH_OUTPUT` of the source. -/
def MAX_REGIONS_LENGTH_OUTPUT : Nat := 64 * MI

/-- Modelled from the spec: argument-name constants of the missing `args.rs`
(`CACHE_ARG`, `CHECKSUM_ARG`, `GAS_USED_ARG`). -/
def CACHE_ARG : String := "cache"

/-- Modelled from the spec: see `CACHE_ARG`. -/
def CHECKSUM_ARG : String := "checksum"

/-- Modelled from the spec: see `CACHE_ARG`. -/
def GAS_USED_ARG : String := "gas_used"

/-- The error type of the missing `error.rs`, restricted to the variants the
dynamic-link module constructs (`unset_arg`, `empty_arg`, `serde_err`,
`dynamic_link_err`, `invalid_events`, `invalid_attributes`, `panic`), plus
`invalid_checksum` for the checksum length check and `vm_err` for errors
bubbled up from the external engine via `?`/`into()`. -/
inductive Error where
  | unset_arg (a : String)
  | empty_arg (a : String)
  | serde_err (m : String)
  | invalid_checksum
  | vm_err (m : String)
  | dynamic_link_err (m : String)
  | invalid_events (m : String)
  | invalid_attributes (m : String)
  | panic
deriving DecidableEq, Repr

/-- Modelled from the spec: the human-readable rendering of an error written
to the error-message slot by the missing `error.rs`. -/
def errString : Error → String
  | .unset_arg a => "Null/Nil argument: " ++ a
  | .empty_arg a => "Empty argument: " ++ a
  | .serde_err m => m
  | .invalid_checksum => "Checksum not of length 32"
  | .vm_err m => m
  | .dynamic_link_err m => m
  | .invalid_events m => "Error in events: " ++ m
  | .invalid_attributes m => "Error in attributes: " ++ m
  | .panic => "Caught panic"

/-- The callee instance borrowed from the module cache for one call: the
state this module installs on it (serialized env, dynamic callstack, callee
permission), its linear-memory regions written through `write_value_to_env`,
its cumulative internal gas counter, and the (unserialized) event/attribute
records it produced. -/
structure Instance where
  serialized_env : Bytes
  callstack : List String
  permission : Option (String × Bool)
  regions : List Bytes
  gas : Nat
  eventsData : Bytes
  attributesData : Bytes
deriving DecidableEq, Repr

/-- Modelled from the spec: `write_value_to_env` of the external execution
engine copies a byte value into the callee instance's linear memory as a
fresh region and returns a reference (here: the region index) to it. -/
def write_value_to_env (i : Instance) (v : Bytes) : Instance × Nat :=
  ({ i with regions := i.regions ++ [v] }, i.regions.length)

/-- Modelled from the spec: the worker of `read_region_vals_from_env`,
reading each referenced region in order while keeping a running total of
bytes read; exceeding the byte budget `limit` is a hard error. -/
def read_region_vals_go (regions : List Bytes) (limit : Nat) :
    List Nat → Nat → Except String (List Bytes)
  | [], _ => .ok []
  | p :: ps, used =>
    match regions[p]? with
    | none => .error "tried to read an invalid result region"
    | some v =>
      if used + v.length > limit then
        .error "length of returned regions exceeds the limit"
      else
        match read_region_vals_go regions limit ps (used + v.length) with
        | .ok rest => .ok (v :: rest)
        | .error e => .error e

/-- Modelled from the spec: `read_region_vals_from_env` of the external
execution engine reads back the returned regions, enforcing a combined byte
budget across all of them. -/
def read_region_vals_from_env (i : Instance) (ptrs : List Nat) (limit : Nat) :
    Except String (List Bytes) :=
  read_region_vals_go i.regions limit ptrs 0

/-- The external collaborators of `do_call_callable_point`: the serde codec
(`from_slice` on each field, `to_vec` on events/attributes), the module
cache, and the execution-engine operations whose behaviour is outside this
module. Errors are reported as their message strings. -/
structure Ext where
  decodeString : Bytes → Except String String
  decodeArgs : Bytes → Except String (List Bytes)
  decodeCallstack : Bytes → Except String (List String)
  get_instance : Bytes → Nat → Bool → Except String Instance
  set_dynamic_callstack : Instance → List String → Except String Instance
  set_callee_permission : Instance → String → Bool → Except String Unit
  call_function : Instance → String → List Nat → Except String (Instance × List Nat)
  serializeEvents : Bytes → Except String Bytes
  serializeAttributes : Bytes → Except String Bytes

/-- The inputs of `do_call_callable_point`: the nullable byte views, the
read-only flag, the instance options, and the presence of the three
nullable out-slots (`gas_used`, `events`, `attributes`). -/
structure CallInput where
  name : Option Bytes
  checksum : Option Bytes
  is_readonly : Bool
  callstack : Option Bytes
  env : Option Bytes
  args : Option Bytes
  gas_limit : Nat
  print_debug : Bool
  gasSlot : Bool
  eventsSlot : Bool
  attributesSlot : Bool
deriving Repr

/-- Final contents of the three out-slots: `none` means the slot was never
written on this execution. -/
structure Outs where
  gas_used : Option Nat
  events : Option Bytes
  attributes : Option Bytes
deriving DecidableEq, Repr

/-- All slots untouched. -/
def Outs.init : Outs := ⟨none, none, none⟩

/-- Observable interactions with the borrowed instance, in execution order:
instance creation, env installation, callstack installation, permission
installation, region writes, and the export invocation. -/
inductive Ev where
  | getInstance
  | setEnv
  | setCallstack
  | setPermission (name : String) (is_readonly : Bool)
  | writeRegion (v : Bytes)
  | invoke (name : String) (ptrs : List Nat)
deriving DecidableEq, Repr

/-- Result of one run of `do_call_callable_point`: the Rust return value,
the final out-slot contents and the instance-interaction trace. -/
structure CallOut where
  res : Except Error (Option Bytes)
  outs : Outs
  trace : List Ev
deriving Repr

/-- One step of the argument-marshaling loop of `do_call_callable_point`
(lines 167-170 of the source): write the argument into callee memory and
push the returned region reference. -/
def marshal_step (acc : Instance × List Nat) (arg : Bytes) : Instance × List Nat :=
  let (i2, p) := write_value_to_env acc.1 arg
  (i2, acc.2 ++ [p])

/-- The input-marshaling block of `do_call_callable_point` (lines 163-170):
write the raw env payload as the first parameter region, then each argument
in order. -/
def marshal_args (i : Instance) (env_u8 : Bytes) (args : List Bytes) :
    Instance × List Nat :=
  let (i1, envPtr) := write_value_to_env i env_u8
  args.foldl marshal_step (i1, [envPtr])

/-- The result-mapping block of `do_call_callable_point` (lines 174-186):
read back the returned regions under `MAX_REGIONS_LENGTH_OUTPUT` and map
0 regions to `none`, 1 region to its value, and 2 or more to a
`DynamicLinkError`. -/
def map_call_result (i : Instance) (results : List Nat) :
    Except Error (Option Bytes) :=
  match read_region_vals_from_env i results MAX_REGIONS_LENGTH_OUTPUT with
  | .error e => .error (.vm_err e)
  | .ok result_datas =>
    match result_datas with
    | [] => .ok none
    | [d] => .ok (some d)
    | _ => .error (.dynamic_link_err "unexpected more than 1 returning values")

/-- `do_call_callable_point` of the source, line by line: decode `name`,
`args`, check the `gas_used` slot, decode `checksum` and `callstack`, read
`env`, create the instance, install env and callstack, install the callee
permission (reporting gas on failure), marshal the parameters, invoke the
export, map the returned regions, populate `events`/`attributes` on
mutating calls, and finally report gas. -/
def do_call_callable_point (ext : Ext) (inp : CallInput) : CallOut :=
  match inp.name with
  | none => ⟨.error (.unset_arg "name"), Outs.init, []⟩
  | some name_bytes =>
  match ext.decodeString name_bytes with
  | .error e =>
      ⟨.error (.serde_err
        ("Error during deserializing callable point's `name` to call: " ++ e)),
        Outs.init, []⟩
  | .ok name =>
  match inp.args with
  | none => ⟨.error (.unset_arg "args"), Outs.init, []⟩
  | some args_bytes =>
  match ext.decodeArgs args_bytes with
  | .error e =>
      ⟨.error (.serde_err
        ("Error during deserializing `args` for the callable point: " ++ e)),
        Outs.init, []⟩
  | .ok args =>
  if inp.gasSlot = false then ⟨.error (.empty_arg GAS_USED_ARG), Outs.init, []⟩
  else
  match inp.checksum with
  | none => ⟨.error (.unset_arg CHECKSUM_ARG), Outs.init, []⟩
  | some cs_bytes =>
  if cs_bytes.length ≠ 32 then ⟨.error .invalid_checksum, Outs.init, []⟩
  else
  match inp.callstack with
  | none => ⟨.error (.unset_arg "callstack"), Outs.init, []⟩
  | some cstk_bytes =>
  match ext.decodeCallstack cstk_bytes with
  | .error e =>
      ⟨.error (.serde_err
        ("Error during deserializing `callstack` of calling callable points: "
          ++ e)), Outs.init, []⟩
  | .ok callstack =>
  match inp.env with
  | none => ⟨.error (.unset_arg "env"), Outs.init, []⟩
  | some env_u8 =>
  match ext.get_instance cs_bytes inp.gas_limit inp.print_debug with
  | .error e => ⟨.error (.vm_err e), Outs.init, [.getInstance]⟩
  | .ok inst0 =>
  match ext.set_dynamic_callstack { inst0 with serialized_env := env_u8 } callstack with
  | .error e =>
      ⟨.error (.vm_err e), Outs.init, [.getInstance, .setEnv, .setCallstack]⟩
  | .ok inst2 =>
  match ext.set_callee_permission inst2 name inp.is_readonly with
  | .error e =>
      ⟨.error (.vm_err e), { Outs.init with gas_used := some inst2.gas },
        [.getInstance, .setEnv, .setCallstack, .setPermission name inp.is_readonly]⟩
  | .ok _ =>
  let inst3 := { inst2 with permission := some (name, inp.is_readonly) }
  let m := marshal_args inst3 env_u8 args
  let tr := [.getInstance, .setEnv, .setCallstack, .setPermission name inp.is_readonly]
    ++ (env_u8 :: args).map Ev.writeRegion ++ [.invoke name m.2]
  match ext.call_function m.1 name m.2 with
  | .error e =>
      ⟨.error (.dynamic_link_err
        ("Error during calling callable point \"" ++ name ++ "\": " ++ e)),
        Outs.init, tr⟩
  | .ok (inst5, results) =>
  match map_call_result inst5 results with
  | .error err => ⟨.error err, Outs.init, tr⟩
  | .ok call_result =>
  if inp.is_readonly then
    ⟨.ok call_result, { Outs.init with gas_used := some inst5.gas }, tr⟩
  else if inp.eventsSlot = false then ⟨.error (.empty_arg "events"), Outs.init, tr⟩
  else if inp.attributesSlot = false then ⟨.error (.empty_arg "attributes"), Outs.init, tr⟩
  else
  match ext.serializeEvents inst5.eventsData with
  | .error e => ⟨.error (.invalid_events e), Outs.init, tr⟩
  | .ok events_vec =>
  match ext.serializeAttributes inst5.attributesData with
  | .error e => ⟨.error (.invalid_attributes e), Outs.init, tr⟩
  | .ok attributes_vec =>
    ⟨.ok call_result, ⟨some inst5.gas, some events_vec, some attributes_vec⟩, tr⟩

/-- Whether the computation guarded by `catch_unwind` panicked or returned. -/
inductive PanicOr (α : Type) where
  | panicked
  | returned (a : α)

/-- Modelled from the spec: `handle_c_error_default` of the missing
`error.rs`: on error, write the message to the error slot (when provided)
and fall back to the default value of the result type. -/
def handle_c_error_default {α : Type} (r : Except Error α) (dflt : α)
    (errSlot : Bool) : α × Option String :=
  match r with
  | .ok v => (v, none)
  | .error e => (dflt, if errSlot then some (errString e) else none)

/-- The common shape of both FFI entry points (lines 62-92 and 227-241 of
the source): check the cache handle, run the worker under `catch_unwind`
mapping a panic to `Error.panic`, route the outcome through
`handle_c_error_default`, serialize the resulting payload (falling back to
an empty byte vector if even that fails), and return it. The returned pair
is (primary payload, error-message slot content). -/
def ffi_wrap {α : Type} (dflt : α) (cacheNull : Bool)
    (inner : PanicOr (Except Error α)) (errSlot : Bool)
    (serialize : α → Option Bytes) : Bytes × Option String :=
  let r : Except Error α :=
    if cacheNull then .error (.unset_arg CACHE_ARG)
    else
      match inner with
      | .panicked => .error .panic
      | .returned x => x
  let p := handle_c_error_default r dflt errSlot
  let data : Bytes :=
    match serialize p.1 with
    | some v => v
    | none => []
  (data, p.2)

/-- `call_callable_point` of the source: `cacheNull` is whether `to_cache`
failed on a null cache pointer, `panics` is whether the guarded worker
panicked, `serialize` is `serde_json::to_vec` on the `Option<Binary>`
payload. -/
def call_callable_point (ext : Ext) (cacheNull : Bool) (panics : Bool)
    (inp : CallInput) (errSlot : Bool)
    (serialize : Option Bytes → Option Bytes) : Bytes × Option String :=
  ffi_wrap none cacheNull
    (if panics then .panicked else .returned (do_call_callable_point ext inp).res)
    errSlot serialize

/-- The wasm value types of `wasmer::Type`, used in function signatures. -/
inductive ValType where
  | i32
  | i64
  | f32
  | f64
  | v128
  | refToHost
  | refToFunc
deriving DecidableEq, Repr

/-- The `Display` rendering of one `wasmer::Type`. -/
def showValType : ValType → String
  | .i32 => "I32"
  | .i64 => "I64"
  | .f32 => "F32"
  | .f64 => "F64"
  | .v128 => "V128"
  | .refToHost => "ExternRef"
  | .refToFunc => "FuncRef"

/-- `wasmer::FunctionType`: ordered parameter types and ordered result
types; equality (the `==` used on line 272 of the source) is structural. -/
structure FunctionType where
  params : List ValType
  results : List ValType
deriving DecidableEq, Repr

/-- Comma-separated concatenation of a list of strings. -/
def commaJoin : List String → String
  | [] => ""
  | [s] => s
  | s :: rest => s ++ ", " ++ commaJoin rest

/-- The `Display` rendering of one `wasmer::FunctionType`. -/
def showFunctionType (t : FunctionType) : String :=
  "[" ++ commaJoin (t.params.map showValType) ++ "] -> ["
    ++ commaJoin (t.results.map showValType) ++ "]"

/-- The "name: type" rendering of one expected-interface entry produced on
line 277 of the source. -/
def renderEntry (e : String × FunctionType) : String :=
  e.1 ++ ": " ++ showFunctionType e.2

/-- The `exported_fns` map of `do_validate_interface` (lines 260-263):
a `HashMap` filled by inserting every exported function in iteration
order, so a later entry with the same name overwrites an earlier one;
`lookupFn` is `exported_fns.get`. -/
def lookupFn (exported : List (String × FunctionType)) (n : String) :
    Option FunctionType :=
  exported.foldl (fun acc f => if f.1 = n then some f.2 else acc) none

/-- One iteration of the expected-interface loop of `do_validate_interface`
(lines 268-280): keep the accumulated (message, is_err) state unless the
entry is missing or signature-mismatched, in which case append its
rendering (comma-separated after the first). -/
def validate_step (exported : List (String × FunctionType))
    (acc : String × Bool) (e : String × FunctionType) : String × Bool :=
  if ((lookupFn exported e.1).map fun t => decide (t = e.2)).getD false then acc
  else ((if acc.2 then acc.1 ++ ", " else acc.1) ++ renderEntry e, true)

/-- The comparison loop of `do_validate_interface` (lines 260-287): build
the exported-function map, fold the expected interface through
`validate_step`, and return the collected message iff anything failed. -/
def validate_core (exported expected : List (String × FunctionType)) :
    Option String :=
  let r := expected.foldl (validate_step exported)
    ("The following functions are not implemented: ", false)
  if r.2 then some r.1 else none

/-- The external collaborators of `do_validate_interface`: the serde decode
of the expected interface and the module cache's static metadata lookup
(`cache.get_module` followed by `module.exports().functions()`). -/
structure VExt where
  decodeInterface : Bytes → Except String (List (String × FunctionType))
  get_module : Bytes → Except String (List (String × FunctionType))

/-- `do_validate_interface` of the source (lines 244-288): decode the
checksum and the expected interface, resolve the module's exported
functions, and run `validate_core`. -/
def do_validate_interface (vext : VExt)
    (checksum expected_interface : Option Bytes) :
    Except Error (Option String) :=
  match checksum with
  | none => .error (.unset_arg CHECKSUM_ARG)
  | some cs =>
  if cs.length ≠ 32 then .error .invalid_checksum
  else
  match expected_interface with
  | none => .error (.unset_arg "expected_interface")
  | some eb =>
  match vext.decodeInterface eb with
  | .error e => .error (.serde_err e)
  | .ok expected =>
  match vext.get_module cs with
  | .error e => .error (.vm_err e)
  | .ok module_fns => .ok (validate_core module_fns expected)

/-- `validate_interface` of the source (lines 221-241), via `ffi_wrap`:
`serialize` is `serde_json::to_vec` on the `Option<String>` payload. -/
def validate_interface (vext : VExt) (cacheNull : Bool) (panics : Bool)
    (checksum expected_interface : Option Bytes) (errSlot : Bool)
    (serialize : Option String → Option Bytes) : Bytes × Option String :=
  ffi_wrap none cacheNull
    (if panics then .panicked
     else .returned (do_validate_interface vext checksum expected_interface))
    errSlot serialize

/-- The specification-side reading of "implemented": the expected entry's
name is exported with a structurally equal function type. -/
def specImplemented (exported : List (String × FunctionType))
    (e : String × FunctionType) : Bool :=
  decide (e ∈ exported)

/-- The expected entries that are missing or signature-mismatched, in the
order the expected interface was given. -/
def specMissing (exported expected : List (String × FunctionType)) :
    List (String × FunctionType) :=
  expected.filter fun e => !specImplemented exported e

/-- A concrete instance used to evaluate the model on closed inputs. -/
def instW : Instance := ⟨[], [], none, [], 7, [1], [2]⟩

/-- A concrete, fully successful set of external collaborators. -/
def extW : Ext :=
  { decodeString := fun _ => .ok "f"
    decodeArgs := fun _ => .ok [[10], [20]]
    decodeCallstack := fun _ => .ok ["caller"]
    get_instance := fun _ _ _ => .ok instW
    set_dynamic_callstack := fun i cs => .ok { i with callstack := cs }
    set_callee_permission := fun _ _ _ => .ok ()
    call_function := fun i _ _ => .ok ({ i with gas := i.gas + 5 }, [])
    serializeEvents := fun b => .ok b
    serializeAttributes := fun b => .ok b }

/-- A concrete request with every field present and every slot provided. -/
def inpW : CallInput :=
  { name := some [0], checksum := some (List.replicate 32 0), is_readonly := false,
    callstack := some [1], env := some [9], args := some [2],
    gas_limit := 100, print_debug := false,
    gasSlot := true, eventsSlot := true, attributesSlot := true }

/-- Like `extW` but the export invocation itself fails (e.g. a trap). -/
def extFailCall : Ext :=
  { extW with call_function := fun _ _ _ => .error "boom" }

/-- A concrete instance holding two written result regions. -/
def instTwoRes : Instance := ⟨[], [], none, [[1], [2]], 0, [], []⟩

/-- C3: for every successful read-back of the returned regions, exactly 0
regions maps to a `none` result, exactly 1 region maps to `some` of that
single binary value, and 2 or more is a `DynamicLinkError` whose message is
"unexpected more than 1 returning values"; no other arity is accepted. -/
theorem c3_result_arity (i : Instance) (results : List Nat) (datas : List Bytes)
    (h : read_region_vals_from_env i results MAX_REGIONS_LENGTH_OUTPUT = .ok datas) :
    (datas = [] → map_call_result i results = .ok none)
      ∧ (∀ d, datas = [d] → map_call_result i results = .ok (some d))
      ∧ (2 ≤ datas.length →
          map_call_result i results
            = .error (.dynamic_link_err "unexpected more than 1 returning values")) := by
  unfold map_call_result
  rw [h]
  refine ⟨fun h0 => ?_, fun d h1 => ?_, fun h2 => ?_⟩
  · subst h0; rfl
  · subst h1; rfl
  · match datas, h2 with
    | d1 :: d2 :: rest, _ => rfl

/-- C3 witness: a callee returning exactly 2 result regions is the hard
arity error. -/
theorem c3_result_arity_witness :
    map_call_result instTwoRes [0, 1]
      = .error (.dynamic_link_err "unexpected more than 1 returning values") :=
  (c3_result_arity instTwoRes [0, 1] [[1], [2]] rfl).2.2 (by decide)

/-- C7 counterexample: a request whose `gas_used` slot is absent but whose
`name` view is also unset fails with `UnsetArgument("name")`, not with the
`EmptyArgument` error for `gas_used` the claim promises for every such
request. -/
theorem c7_counterexample :
    ({ inpW with gasSlot := false, name := none } : CallInput).gasSlot = false
      ∧ (do_call_callable_point extW { inpW with gasSlot := false, name := none }).res
          = .error (.unset_arg "name")
      ∧ Error.unset_arg "name" ≠ Error.empty_arg GAS_USED_ARG := by
  refine ⟨rfl, rfl, by decide⟩

/-- C7 (amended): if `name` and `args` decode successfully and the
`gas_used` output slot is absent, the call fails with `EmptyArgument` for
`gas_used` and the trace is empty: no instance is created and no guest code
runs. -/
theorem c7_missing_gas_slot (ext : Ext) (inp : CallInput)
    (nb ab : Bytes) (name : String) (args : List Bytes)
    (h1 : inp.name = some nb) (h2 : ext.decodeString nb = .ok name)
    (h3 : inp.args = some ab) (h4 : ext.decodeArgs ab = .ok args)
    (h5 : inp.gasSlot = false) :
    (do_call_callable_point ext inp).res = .error (.empty_arg GAS_USED_ARG)
      ∧ (do_call_callable_point ext inp).trace = [] := by
  simp [do_call_callable_point, h1, h2, h3, h4, h5]

/-- C7 witness: the amended statement at a concrete request. -/
theorem c7_missing_gas_slot_witness :
    (do_call_callable_point extW { inpW with gasSlot := false }).res
        = .error (.empty_arg GAS_USED_ARG)
      ∧ (do_call_callable_point extW { inpW with gasSlot := false }).trace = [] :=
  c7_missing_gas_slot extW { inpW with gasSlot := false }
    [0] [2] "f" [[10], [20]] rfl rfl rfl rfl rfl

/-- C8: for every input, a panic raised inside either worker is caught at
the single outermost entry point, converted to the internal-panic error
reported through the error-message slot, and the function still returns the
well-defined serialized absent payload (or an owned empty byte vector if
even that serialization fails). -/
theorem c8_panic_caught (ext : Ext) (vext : VExt) (inp : CallInput)
    (cs eb : Option Bytes) (errSlot : Bool)
    (ser1 : Option Bytes → Option Bytes) (ser2 : Option String → Option Bytes) :
    call_callable_point ext false true inp errSlot ser1
        = ((ser1 none).getD [],
            if errSlot then some (errString .panic) else none)
      ∧ validate_interface vext false true cs eb errSlot ser2
        = ((ser2 none).getD [],
            if errSlot then some (errString .panic) else none) := by
  constructor
  · simp only [call_callable_point, ffi_wrap, handle_c_error_default, if_neg Bool.false_ne_true]
    cases h : ser1 none <;> simp [h]
  · simp only [validate_interface, ffi_wrap, handle_c_error_default, if_neg Bool.false_ne_true]
    cases h : ser2 none <;> simp [h]

/-- C10: for every call with a null cache pointer, both entry points do no
decoding and no instance or module work (the result does not depend on the
request or on any collaborator), report `UnsetArgument` for the cache
argument through the error-message slot, and still return the well-defined
serialized absent payload (an owned empty byte vector if serialization
fails). -/
theorem c10_null_cache (ext : Ext) (vext : VExt) (inp : CallInput)
    (cs eb : Option Bytes) (panics1 panics2 : Bool) (errSlot : Bool)
    (ser1 : Option Bytes → Option Bytes) (ser2 : Option String → Option Bytes) :
    call_callable_point ext true panics1 inp errSlot ser1
        = ((ser1 none).getD [],
            if errSlot then some (errString (.unset_arg CACHE_ARG)) else none)
      ∧ validate_interface vext true panics2 cs eb errSlot ser2
        = ((ser2 none).getD [],
            if errSlot then some (errString (.unset_arg CACHE_ARG)) else none) := by
  constructor
  · simp only [call_callable_point, ffi_wrap, handle_c_error_default, if_pos rfl]
    cases h : ser1 none <;> simp [h]
  · simp only [validate_interface, ffi_wrap, handle_c_error_default, if_pos rfl]
    cases h : ser2 none <;> simp [h]

/-- Characterization of the argument-marshaling fold: starting from
instance `i` and already-collected pointers `ps`, folding `args` appends
the argument bytes to the instance's regions and collects the region
indices `i.regions.length, i.regions.length + 1, ...` in order. -/
theorem marshal_foldl (args : List Bytes) : ∀ (i : Instance) (ps : List Nat),
    args.foldl marshal_step (i, ps)
      = ({ i with regions := i.regions ++ args },
         ps ++ (List.range args.length).map fun k => i.regions.length + k) := by
  induction args with
  | nil => intro i ps; simp
  | cons a as ih =>
    intro i ps
    rw [List.foldl_cons]
    show as.foldl marshal_step
        ({ i with regions := i.regions ++ [a] }, ps ++ [i.regions.length]) = _
    rw [ih]
    refine congrArg₂ Prod.mk ?_ ?_
    · simp
    · simp only [List.length_append, List.length_cons, List.length_nil,
        List.range_succ_eq_map, List.map_cons, List.map_map, List.append_assoc,
        List.cons_append, List.nil_append, Nat.add_zero]
      refine congrArg (ps ++ ·) (congrArg (i.regions.length :: ·) ?_)
      refine List.map_congr_left fun k _ => ?_
      simp [Function.comp]
      omega

/-- The region-pointer list produced by `marshal_args`. -/
theorem marshal_args_eq (i : Instance) (env_u8 : Bytes) (args : List Bytes) :
    marshal_args i env_u8 args
      = ({ i with regions := i.regions ++ env_u8 :: args },
         i.regions.length
           :: (List.range args.length).map fun k => i.regions.length + 1 + k) := by
  show args.foldl marshal_step
      ({ i with regions := i.regions ++ [env_u8] }, [i.regions.length]) = _
  rw [marshal_foldl]
  refine congrArg₂ Prod.mk ?_ ?_
  · simp
  · simp only [List.length_append, List.length_cons, List.length_nil,
      List.singleton_append, Nat.add_zero]

/-- If every step up to and including permission installation succeeds, the
trace of `do_call_callable_point` is instance creation, env installation,
callstack installation, permission installation, one region write per
marshaled value (env first, then the arguments in order), and the single
invocation of the named export — whatever happens from the invocation on. -/
theorem do_call_reaches_invocation (ext : Ext) (inp : CallInput)
    (nb ab cb eb csb : Bytes) (name : String) (args : List Bytes)
    (cstk : List String) (inst0 inst2 : Instance)
    (h1 : inp.name = some nb) (h2 : ext.decodeString nb = .ok name)
    (h3 : inp.args = some ab) (h4 : ext.decodeArgs ab = .ok args)
    (h5 : inp.gasSlot = true)
    (h6 : inp.checksum = some csb) (h7 : csb.length = 32)
    (h8 : inp.callstack = some cb) (h9 : ext.decodeCallstack cb = .ok cstk)
    (h10 : inp.env = some eb)
    (h11 : ext.get_instance csb inp.gas_limit inp.print_debug = .ok inst0)
    (h12 : ext.set_dynamic_callstack { inst0 with serialized_env := eb } cstk = .ok inst2)
    (h13 : ext.set_callee_permission inst2 name inp.is_readonly = .ok ()) :
    (do_call_callable_point ext inp).trace
      = [.getInstance, .setEnv, .setCallstack, .setPermission name inp.is_readonly]
        ++ (eb :: args).map Ev.writeRegion
        ++ [.invoke name
            (marshal_args { inst2 with permission := some (name, inp.is_readonly) }
              eb args).2] := by
  simp only [do_call_callable_point, h1, h2, h3, h4, h5, h6, h7, h8, h9, h10,
    h11, h12, h13]
  norm_num
  repeat' split
  all_goals rfl

/-- C2: whenever the argument list decodes to `args` of length n and the
call reaches the invocation, the callee is invoked with exactly n+1
parameter regions: parameter 0 is the region holding the raw env payload
and parameter k+1 is the region holding the k-th argument, in the
original order. -/
theorem c2_env_first_then_args (ext : Ext) (inp : CallInput)
    (nb ab cb eb csb : Bytes) (name : String) (args : List Bytes)
    (cstk : List String) (inst0 inst2 : Instance)
    (h1 : inp.name = some nb) (h2 : ext.decodeString nb = .ok name)
    (h3 : inp.args = some ab) (h4 : ext.decodeArgs ab = .ok args)
    (h5 : inp.gasSlot = true)
    (h6 : inp.checksum = some csb) (h7 : csb.length = 32)
    (h8 : inp.callstack = some cb) (h9 : ext.decodeCallstack cb = .ok cstk)
    (h10 : inp.env = some eb)
    (h11 : ext.get_instance csb inp.gas_limit inp.print_debug = .ok inst0)
    (h12 : ext.set_dynamic_callstack { inst0 with serialized_env := eb } cstk = .ok inst2)
    (h13 : ext.set_callee_permission inst2 name inp.is_readonly = .ok ()) :
    let m := marshal_args { inst2 with permission := some (name, inp.is_readonly) } eb args
    Ev.invoke name m.2 ∈ (do_call_callable_point ext inp).trace
      ∧ m.2.length = args.length + 1
      ∧ m.1.regions[m.2.getD 0 0]? = some eb
      ∧ ∀ k, k < args.length → m.1.regions[m.2.getD (k + 1) 0]? = args[k]? := by
  intro m
  have htr := do_call_reaches_invocation ext inp nb ab cb eb csb name args cstk
    inst0 inst2 h1 h2 h3 h4 h5 h6 h7 h8 h9 h10 h11 h12 h13
  have hm := marshal_args_eq
    { inst2 with permission := some (name, inp.is_readonly) } eb args
  refine ⟨?_, ?_, ?_, ?_⟩
  · rw [htr]; simp
  · show m.2.length = args.length + 1
    rw [show m.2 = (marshal_args _ eb args).2 from rfl, hm]
    simp
  · rw [show m = marshal_args _ eb args from rfl, hm]
    simp only [List.getD_cons_zero]
    rw [List.getElem?_append_right (Nat.le_refl _), Nat.sub_self,
      List.getElem?_cons_zero]
  · intro k hk
    rw [show m = marshal_args _ eb args from rfl, hm]
    simp only [List.getD_cons_succ]
    have hget : ((List.range args.length).map fun j =>
        inst2.regions.length + 1 + j).getD k 0 = inst2.regions.length + 1 + k := by
      rw [List.getD_eq_getElem?_getD, List.getElem?_map, List.getElem?_range hk]
      rfl
    rw [hget]
    have hlen : inst2.regions.length ≤ inst2.regions.length + 1 + k := by omega
    rw [List.getElem?_append_right hlen]
    have : inst2.regions.length + 1 + k - inst2.regions.length = k + 1 := by omega
    rw [this, List.getElem?_cons_succ]

/-- C2 witness: the marshaling properties at a fully concrete request. -/
theorem c2_env_first_then_args_witness :
    (let m := marshal_args ⟨[9], ["caller"], some ("f", false), [], 7, [1], [2]⟩
      [9] [[10], [20]]
    Ev.invoke "f" m.2 ∈ (do_call_callable_point extW inpW).trace
      ∧ m.2.length = 2 + 1
      ∧ m.1.regions[m.2.getD 0 0]? = some [9]
      ∧ ∀ k, k < 2 → m.1.regions[m.2.getD (k + 1) 0]? = [[10], [20]][k]?) :=
  c2_env_first_then_args extW inpW [0] [2] [1] [9] (List.replicate 32 0) "f"
    [[10], [20]] ["caller"] instW ⟨[9], ["caller"], none, [], 7, [1], [2]⟩
    rfl rfl rfl rfl rfl rfl rfl rfl rfl rfl rfl rfl rfl

/-- C9: the instance-configuration steps occur in a fixed order on every
execution: the trace is always a prefix-closed stage of creation, env
installation, callstack installation, permission installation, region
writes (env, then the arguments), and the single invocation — so env and
callstack are installed before permission logic runs, and permission is
installed before any argument region is written and before the export is
invoked. -/
theorem c9_configuration_order (ext : Ext) (inp : CallInput) :
    (do_call_callable_point ext inp).trace = []
      ∨ (do_call_callable_point ext inp).trace = [.getInstance]
      ∨ (do_call_callable_point ext inp).trace = [.getInstance, .setEnv, .setCallstack]
      ∨ (∃ name ro, (do_call_callable_point ext inp).trace
          = [.getInstance, .setEnv, .setCallstack, .setPermission name ro])
      ∨ (∃ name ro env_u8 args ptrs, (do_call_callable_point ext inp).trace
          = [.getInstance, .setEnv, .setCallstack, .setPermission name ro]
            ++ (env_u8 :: args).map Ev.writeRegion ++ [.invoke name ptrs]) := by
  unfold do_call_callable_point
  repeat' (first | split | dsimp only)
  all_goals
    first
      | exact Or.inl rfl
      | exact Or.inr (Or.inl rfl)
      | exact Or.inr (Or.inr (Or.inl rfl))
      | exact Or.inr (Or.inr (Or.inr (Or.inl ⟨_, _, rfl⟩)))
      | exact Or.inr (Or.inr (Or.inr (Or.inr ⟨_, _, _, _, _, rfl⟩)))

/-- C1 counterexample: an execution in which instance creation succeeded
and the invocation itself failed (a trap) exits with the `DynamicLinkError`
while the `gas_used` output is never populated — refuting the claim that
`gas_used` is populated on every exit path once instance creation
succeeded. -/
theorem c1_counterexample :
    extFailCall.get_instance (List.replicate 32 0) 100 false = .ok instW
      ∧ (do_call_callable_point extFailCall inpW).res
          = .error (.dynamic_link_err
              "Error during calling callable point \"f\": boom")
      ∧ (do_call_callable_point extFailCall inpW).outs.gas_used = none :=
  ⟨rfl, rfl, rfl⟩

/-- C1 (amended): once instance creation succeeded, `gas_used` is populated
exactly on the permission-failure exit path and on successful returns; on
every other post-creation failure path — call-stack-installation failure,
invocation failure, result-region read failure, arity error, a missing
`events`/`attributes` slot on a mutating call, and event/attribute
serialization failure — the function returns the error without populating
it. -/
theorem c1_gas_reporting (ext : Ext) (inp : CallInput) :
    (∀ x, (do_call_callable_point ext inp).res = .ok x →
        ∃ g, (do_call_callable_point ext inp).outs.gas_used = some g)
      ∧ (∀ (nb ab cb eb csb : Bytes) (name : String) (args : List Bytes)
          (cstk : List String) (inst0 inst2 : Instance) (e : String),
          inp.name = some nb → ext.decodeString nb = .ok name →
          inp.args = some ab → ext.decodeArgs ab = .ok args →
          inp.gasSlot = true →
          inp.checksum = some csb → csb.length = 32 →
          inp.callstack = some cb → ext.decodeCallstack cb = .ok cstk →
          inp.env = some eb →
          ext.get_instance csb inp.gas_limit inp.print_debug = .ok inst0 →
          ext.set_dynamic_callstack { inst0 with serialized_env := eb } cstk = .ok inst2 →
          ext.set_callee_permission inst2 name inp.is_readonly = .error e →
          (do_call_callable_point ext inp).res = .error (.vm_err e)
            ∧ (do_call_callable_point ext inp).outs.gas_used = some inst2.gas)
      ∧ (∀ (nb ab cb eb csb : Bytes) (name : String) (args : List Bytes)
          (cstk : List String) (inst0 : Instance) (e : String),
          inp.name = some nb → ext.decodeString nb = .ok name →
          inp.args = some ab → ext.decodeArgs ab = .ok args →
          inp.gasSlot = true →
          inp.checksum = some csb → csb.length = 32 →
          inp.callstack = some cb → ext.decodeCallstack cb = .ok cstk →
          inp.env = some eb →
          ext.get_instance csb inp.gas_limit inp.print_debug = .ok inst0 →
          ext.set_dynamic_callstack { inst0 with serialized_env := eb } cstk = .error e →
          (do_call_callable_point ext inp).res = .error (.vm_err e)
            ∧ (do_call_callable_point ext inp).outs.gas_used = none)
      ∧ (∀ (nb ab cb eb csb : Bytes) (name : String) (args : List Bytes)
          (cstk : List String) (inst0 inst2 : Instance) (e : String),
          inp.name = some nb → ext.decodeString nb = .ok name →
          inp.args = some ab → ext.decodeArgs ab = .ok args →
          inp.gasSlot = true →
          inp.checksum = some csb → csb.length = 32 →
          inp.callstack = some cb → ext.decodeCallstack cb = .ok cstk →
          inp.env = some eb →
          ext.get_instance csb inp.gas_limit inp.print_debug = .ok inst0 →
          ext.set_dynamic_callstack { inst0 with serialized_env := eb } cstk = .ok inst2 →
          ext.set_callee_permission inst2 name inp.is_readonly = .ok () →
          ext.call_function
              (marshal_args { inst2 with permission := some (name, inp.is_readonly) } eb args).1
              name
              (marshal_args { inst2 with permission := some (name, inp.is_readonly) } eb args).2
            = .error e →
          (do_call_callable_point ext inp).res
              = .error (.dynamic_link_err
                  ("Error during calling callable point \"" ++ name ++ "\": " ++ e))
            ∧ (do_call_callable_point ext inp).outs.gas_used = none)
      ∧ (∀ (nb ab cb eb csb : Bytes) (name : String) (args : List Bytes)
          (cstk : List String) (inst0 inst2 inst5 : Instance)
          (results : List Nat) (e : String),
          inp.name = some nb → ext.decodeString nb = .ok name →
          inp.args = some ab → ext.decodeArgs ab = .ok args →
          inp.gasSlot = true →
          inp.checksum = some csb → csb.length = 32 →
          inp.callstack = some cb → ext.decodeCallstack cb = .ok cstk →
          inp.env = some eb →
          ext.get_instance csb inp.gas_limit inp.print_debug = .ok inst0 →
          ext.set_dynamic_callstack { inst0 with serialized_env := eb } cstk = .ok inst2 →
          ext.set_callee_permission inst2 name inp.is_readonly = .ok () →
          ext.call_function
              (marshal_args { inst2 with permission := some (name, inp.is_readonly) } eb args).1
              name
              (marshal_args { inst2 with permission := some (name, inp.is_readonly) } eb args).2
            = .ok (inst5, results) →
          read_region_vals_from_env inst5 results MAX_REGIONS_LENGTH_OUTPUT = .error e →
          (do_call_callable_point ext inp).res = .error (.vm_err e)
            ∧ (do_call_callable_point ext inp).outs.gas_used = none)
      ∧ (∀ (nb ab cb eb csb : Bytes) (name : String) (args : List Bytes)
          (cstk : List String) (inst0 inst2 inst5 : Instance)
          (results : List Nat) (d1 d2 : Bytes) (rest : List Bytes),
          inp.name = some nb → ext.decodeString nb = .ok name →
          inp.args = some ab → ext.decodeArgs ab = .ok args →
          inp.gasSlot = true →
          inp.checksum = some csb → csb.length = 32 →
          inp.callstack = some cb → ext.decodeCallstack cb = .ok cstk →
          inp.env = some eb →
          ext.get_instance csb inp.gas_limit inp.print_debug = .ok inst0 →
          ext.set_dynamic_callstack { inst0 with serialized_env := eb } cstk = .ok inst2 →
          ext.set_callee_permission inst2 name inp.is_readonly = .ok () →
          ext.call_function
              (marshal_args { inst2 with permission := some (name, inp.is_readonly) } eb args).1
              name
              (marshal_args { inst2 with permission := some (name, inp.is_readonly) } eb args).2
            = .ok (inst5, results) →
          read_region_vals_from_env inst5 results MAX_REGIONS_LENGTH_OUTPUT
              = .ok (d1 :: d2 :: rest) →
          (do_call_callable_point ext inp).res
              = .error (.dynamic_link_err "unexpected more than 1 returning values")
            ∧ (do_call_callable_point ext inp).outs.gas_used = none)
      ∧ (∀ (nb ab cb eb csb : Bytes) (name : String) (args : List Bytes)
          (cstk : List String) (inst0 inst2 inst5 : Instance)
          (results : List Nat) (x : Option Bytes),
          inp.is_readonly = false →
          inp.name = some nb → ext.decodeString nb = .ok name →
          inp.args = some ab → ext.decodeArgs ab = .ok args →
          inp.gasSlot = true →
          inp.checksum = some csb → csb.length = 32 →
          inp.callstack = some cb → ext.decodeCallstack cb = .ok cstk →
          inp.env = some eb →
          ext.get_instance csb inp.gas_limit inp.print_debug = .ok inst0 →
          ext.set_dynamic_callstack { inst0 with serialized_env := eb } cstk = .ok inst2 →
          ext.set_callee_permission inst2 name false = .ok () →
          ext.call_function
              (marshal_args { inst2 with permission := some (name, false) } eb args).1
              name
              (marshal_args { inst2 with permission := some (name, false) } eb args).2
            = .ok (inst5, results) →
          map_call_result inst5 results = .ok x →
          (inp.eventsSlot = false →
              (do_call_callable_point ext inp).res = .error (.empty_arg "events")
                ∧ (do_call_callable_point ext inp).outs.gas_used = none)
            ∧ (inp.eventsSlot = true → inp.attributesSlot = false →
                (do_call_callable_point ext inp).res = .error (.empty_arg "attributes")
                  ∧ (do_call_callable_point ext inp).outs.gas_used = none)
            ∧ (∀ e, inp.eventsSlot = true → inp.attributesSlot = true →
                ext.serializeEvents inst5.eventsData = .error e →
                (do_call_callable_point ext inp).res = .error (.invalid_events e)
                  ∧ (do_call_callable_point ext inp).outs.gas_used = none)
            ∧ (∀ ev e, inp.eventsSlot = true → inp.attributesSlot = true →
                ext.serializeEvents inst5.eventsData = .ok ev →
                ext.serializeAttributes inst5.attributesData = .error e →
                (do_call_callable_point ext inp).res = .error (.invalid_attributes e)
                  ∧ (do_call_callable_point ext inp).outs.gas_used = none)) := by
  refine ⟨?_, ?_, ?_, ?_, ?_, ?_, ?_⟩
  · unfold do_call_callable_point
    repeat' (first | split | dsimp only)
    all_goals intro x hx
    all_goals first
      | exact ⟨_, rfl⟩
      | exact absurd hx (by simp)
  · intro nb ab cb eb csb name args cstk inst0 inst2 e
      h1 h2 h3 h4 h5 h6 h7 h8 h9 h10 h11 h12 h13
    simp only [do_call_callable_point, h1, h2, h3, h4, h5, h6, h7, h8, h9, h10,
      h11, h12, h13]
    norm_num
  · intro nb ab cb eb csb name args cstk inst0 e
      h1 h2 h3 h4 h5 h6 h7 h8 h9 h10 h11 h12
    simp only [do_call_callable_point, h1, h2, h3, h4, h5, h6, h7, h8, h9, h10,
      h11, h12]
    norm_num [Outs.init]
  · intro nb ab cb eb csb name args cstk inst0 inst2 e
      h1 h2 h3 h4 h5 h6 h7 h8 h9 h10 h11 h12 h13 h14
    simp only [do_call_callable_point, h1, h2, h3, h4, h5, h6, h7, h8, h9, h10,
      h11, h12, h13, h14]
    norm_num [Outs.init]
  · intro nb ab cb eb csb name args cstk inst0 inst2 inst5 results e
      h1 h2 h3 h4 h5 h6 h7 h8 h9 h10 h11 h12 h13 h14 h15
    simp only [do_call_callable_point, map_call_result, h1, h2, h3, h4, h5, h6,
      h7, h8, h9, h10, h11, h12, h13, h14, h15]
    norm_num [Outs.init]
  · intro nb ab cb eb csb name args cstk inst0 inst2 inst5 results d1 d2 rest
      h1 h2 h3 h4 h5 h6 h7 h8 h9 h10 h11 h12 h13 h14 h15
    simp only [do_call_callable_point, map_call_result, h1, h2, h3, h4, h5, h6,
      h7, h8, h9, h10, h11, h12, h13, h14, h15]
    norm_num [Outs.init]
  · intro nb ab cb eb csb name args cstk inst0 inst2 inst5 results x
      hro h1 h2 h3 h4 h5 h6 h7 h8 h9 h10 h11 h12 h13 h14 h15
    refine ⟨?_, ?_, ?_, ?_⟩
    · intro hes
      simp only [do_call_callable_point, h1, h2, h3, h4, h5, h6, h7, h8, h9, h10,
        h11, h12, hro, h13, h14, h15, hes]
      norm_num [Outs.init]
    · intro hes has
      simp only [do_call_callable_point, h1, h2, h3, h4, h5, h6, h7, h8, h9, h10,
        h11, h12, hro, h13, h14, h15, hes, has]
      norm_num [Outs.init]
    · intro e hes has hse
      simp only [do_call_callable_point, h1, h2, h3, h4, h5, h6, h7, h8, h9, h10,
        h11, h12, hro, h13, h14, h15, hes, has, hse]
      norm_num [Outs.init]
    · intro ev e hes has hse hsa
      simp only [do_call_callable_point, h1, h2, h3, h4, h5, h6, h7, h8, h9, h10,
        h11, h12, hro, h13, h14, h15, hes, has, hse, hsa]
      norm_num [Outs.init]

/-- C1 witness: the successful-return half at a concrete request, where the
gas slot ends up populated. -/
theorem c1_gas_reporting_witness :
    ∃ g, (do_call_callable_point extW inpW).outs.gas_used = some g :=
  (c1_gas_reporting extW inpW).1 none rfl

/-- C5: read-only calls never populate the `events`/`attributes` output
slots; successful non-read-only calls always populate both with the
serialized records extracted from the instance; and on a non-read-only call
whose invocation succeeded, the absence of either slot is a hard
`EmptyArgument` error. -/
theorem c5_events_attributes_population (ext : Ext) (inp : CallInput) :
    (inp.is_readonly = true →
        (do_call_callable_point ext inp).outs.events = none
          ∧ (do_call_callable_point ext inp).outs.attributes = none)
      ∧ (inp.is_readonly = false →
          ∀ x, (do_call_callable_point ext inp).res = .ok x →
            (∃ ev, (do_call_callable_point ext inp).outs.events = some ev)
              ∧ ∃ av, (do_call_callable_point ext inp).outs.attributes = some av)
      ∧ (∀ (nb ab cb eb csb : Bytes) (name : String) (args : List Bytes)
          (cstk : List String) (inst0 inst2 inst5 : Instance)
          (results : List Nat) (x : Option Bytes),
          inp.is_readonly = false →
          inp.name = some nb → ext.decodeString nb = .ok name →
          inp.args = some ab → ext.decodeArgs ab = .ok args →
          inp.gasSlot = true →
          inp.checksum = some csb → csb.length = 32 →
          inp.callstack = some cb → ext.decodeCallstack cb = .ok cstk →
          inp.env = some eb →
          ext.get_instance csb inp.gas_limit inp.print_debug = .ok inst0 →
          ext.set_dynamic_callstack { inst0 with serialized_env := eb } cstk = .ok inst2 →
          ext.set_callee_permission inst2 name false = .ok () →
          ext.call_function
              (marshal_args { inst2 with permission := some (name, false) } eb args).1
              name
              (marshal_args { inst2 with permission := some (name, false) } eb args).2
            = .ok (inst5, results) →
          map_call_result inst5 results = .ok x →
          (inp.eventsSlot = false →
              (do_call_callable_point ext inp).res = .error (.empty_arg "events"))
            ∧ (inp.eventsSlot = true → inp.attributesSlot = false →
                (do_call_callable_point ext inp).res = .error (.empty_arg "attributes"))
            ∧ (∀ (ev av : Bytes),
                inp.eventsSlot = true → inp.attributesSlot = true →
                ext.serializeEvents inst5.eventsData = .ok ev →
                ext.serializeAttributes inst5.attributesData = .ok av →
                (do_call_callable_point ext inp).outs
                    = ⟨some inst5.gas, some ev, some av⟩
                  ∧ (do_call_callable_point ext inp).res = .ok x)) := by
  refine ⟨?_, ?_, ?_⟩
  · intro hro
    unfold do_call_callable_point
    repeat' (first | split | dsimp only)
    all_goals first
      | exact ⟨rfl, rfl⟩
      | simp_all [Outs.init]
  · intro hro x
    unfold do_call_callable_point
    repeat' (first | split | dsimp only)
    all_goals intro hx
    all_goals first
      | exact ⟨⟨_, rfl⟩, ⟨_, rfl⟩⟩
      | simp_all [Outs.init]
  · intro nb ab cb eb csb name args cstk inst0 inst2 inst5 results x
      hro h1 h2 h3 h4 h5 h6 h7 h8 h9 h10 h11 h12 h13 h14 h15
    refine ⟨?_, ?_, ?_⟩
    · intro hes
      simp only [do_call_callable_point, h1, h2, h3, h4, h5, h6, h7, h8, h9, h10,
        h11, h12, hro, h13, h14, h15, hes]
      norm_num
    · intro hes has
      simp only [do_call_callable_point, h1, h2, h3, h4, h5, h6, h7, h8, h9, h10,
        h11, h12, hro, h13, h14, h15, hes, has]
      norm_num
    · intro ev av hes has hse hsa
      simp only [do_call_callable_point, h1, h2, h3, h4, h5, h6, h7, h8, h9, h10,
        h11, h12, hro, h13, h14, h15, hes, has, hse, hsa]
      norm_num

/-- C5 witness: a concrete mutating call that succeeds with both slots
present, applied at the serialized-records half. -/
theorem c5_events_attributes_population_witness :
    (do_call_callable_point extW inpW).outs = ⟨some 12, some [1], some [2]⟩
      ∧ (do_call_callable_point extW inpW).res = .ok none :=
  ((c5_events_attributes_population extW inpW).2.2 [0] [2] [1] [9]
    (List.replicate 32 0) "f" [[10], [20]] ["caller"] instW
    ⟨[9], ["caller"], none, [], 7, [1], [2]⟩
    ⟨[9], ["caller"], some ("f", false), [[9], [10], [20]], 12, [1], [2]⟩
    [] none
    rfl rfl rfl rfl rfl rfl rfl rfl rfl rfl rfl rfl rfl rfl rfl rfl).2.2
    [1] [2] rfl rfl rfl rfl

/-- Combined byte size of the regions referenced by `ptrs`. -/
def sumLens (i : Instance) (ptrs : List Nat) : Nat :=
  (ptrs.map fun p => ((i.regions[p]?).getD []).length).sum

/-- Behaviour of the region read-back loop when every pointer resolves:
it succeeds iff the running total stays within the budget, and fails with
an error as soon as the total exceeds it. -/
theorem read_go_spec (regions : List Bytes) (limit : Nat) :
    ∀ (ptrs : List Nat) (used : Nat), (∀ p ∈ ptrs, p < regions.length) →
      used ≤ limit →
      (used + (ptrs.map fun p => ((regions[p]?).getD []).length).sum ≤ limit →
        read_region_vals_go regions limit ptrs used
          = .ok (ptrs.map fun p => (regions[p]?).getD []))
      ∧ (limit < used + (ptrs.map fun p => ((regions[p]?).getD []).length).sum →
        ∃ e, read_region_vals_go regions limit ptrs used = .error e) := by
  intro ptrs
  induction ptrs with
  | nil =>
    intro used hres hu
    refine ⟨fun _ => rfl, fun hlt => ?_⟩
    exfalso
    simp at hlt
    omega
  | cons p ps ih =>
    intro used hres hu
    have hp : p < regions.length := hres p (List.mem_cons_self p ps)
    have hv : regions[p]? = some regions[p] := List.getElem?_eq_getElem hp
    unfold read_region_vals_go
    simp only [hv]
    by_cases hgt : used + regions[p].length > limit
    · rw [if_pos hgt]
      refine ⟨fun hle => ?_, fun _ => ⟨_, rfl⟩⟩
      exfalso
      simp only [List.map_cons, List.sum_cons, hv, Option.getD_some] at hle
      omega
    · rw [if_neg hgt]
      have ihh := ih (used + regions[p].length)
        (fun q hq => hres q (List.mem_cons_of_mem p hq)) (by omega)
      constructor
      · intro hle
        simp only [List.map_cons, List.sum_cons, hv, Option.getD_some] at hle
        rw [ihh.1 (by omega)]
        simp [hv]
      · intro hlt
        simp only [List.map_cons, List.sum_cons, hv, Option.getD_some] at hlt
        obtain ⟨e, he⟩ := ihh.2 (by omega)
        rw [he]
        exact ⟨_, rfl⟩

/-- C4: the combined byte size of all returned regions is bounded by a
budget of exactly 64 MiB: whenever every result pointer resolves, a total
of at most (so in particular exactly) 64 MiB is read back successfully, and
any total beyond it — in particular 64 MiB + 1 — is a hard error. -/
theorem c4_output_budget (i : Instance) (ptrs : List Nat)
    (hres : ∀ p ∈ ptrs, p < i.regions.length) :
    MAX_REGIONS_LENGTH_OUTPUT = 64 * 1024 * 1024
      ∧ (sumLens i ptrs ≤ 64 * 1024 * 1024 →
          read_region_vals_from_env i ptrs MAX_REGIONS_LENGTH_OUTPUT
            = .ok (ptrs.map fun p => (i.regions[p]?).getD []))
      ∧ (64 * 1024 * 1024 < sumLens i ptrs →
          ∃ e, read_region_vals_from_env i ptrs MAX_REGIONS_LENGTH_OUTPUT
            = .error e) := by
  have hmax : MAX_REGIONS_LENGTH_OUTPUT = 64 * 1024 * 1024 := by
    norm_num [MAX_REGIONS_LENGTH_OUTPUT, MI]
  have h := read_go_spec i.regions MAX_REGIONS_LENGTH_OUTPUT ptrs 0 hres
    (Nat.zero_le _)
  refine ⟨hmax, fun hle => ?_, fun hlt => ?_⟩
  · exact h.1 (by rw [hmax]; simpa [sumLens] using hle)
  · exact h.2 (by rw [hmax]; simpa [sumLens] using hlt)

/-- C4 witness: a single returned region of exactly 64 MiB is accepted, and
one of 64 MiB + 1 bytes is rejected. -/
theorem c4_output_budget_witness :
    read_region_vals_from_env
        ⟨[], [], none, [List.replicate (64 * 1024 * 1024) 0], 0, [], []⟩
        [0] MAX_REGIONS_LENGTH_OUTPUT
      = .ok [List.replicate (64 * 1024 * 1024) 0]
    ∧ ∃ e, read_region_vals_from_env
        ⟨[], [], none, [List.replicate (64 * 1024 * 1024 + 1) 0], 0, [], []⟩
        [0] MAX_REGIONS_LENGTH_OUTPUT
      = .error e := by
  constructor
  · have h := (c4_output_budget
      ⟨[], [], none, [List.replicate (64 * 1024 * 1024) 0], 0, [], []⟩
      [0] (by intro p hp; rw [List.mem_singleton] at hp; subst hp; exact Nat.one_pos)).2.1
      (by simp only [sumLens, List.map_cons, List.map_nil, List.sum_cons,
        List.sum_nil, List.getElem?_cons_zero, Option.getD_some,
        List.length_replicate, Nat.add_zero, le_refl])
    rw [show (([0] : List Nat).map fun p =>
        ((([List.replicate (64 * 1024 * 1024) 0] : List Bytes)[p]?).getD []))
        = [List.replicate (64 * 1024 * 1024) 0] from by
      simp only [List.map_cons, List.map_nil, List.getElem?_cons_zero,
        Option.getD_some]] at h
    exact h
  · exact (c4_output_budget
      ⟨[], [], none, [List.replicate (64 * 1024 * 1024 + 1) 0], 0, [], []⟩
      [0] (by intro p hp; rw [List.mem_singleton] at hp; subst hp; exact Nat.one_pos)).2.2
      (by simp only [sumLens, List.map_cons, List.map_nil, List.sum_cons,
        List.sum_nil, List.getElem?_cons_zero, Option.getD_some,
        List.length_replicate, Nat.add_zero, Nat.lt_add_one])

/-- The tail a non-empty missing-entry list contributes after an already
started message: nothing when there is nothing left, otherwise a comma and
the joined rest. -/
def tailStr (ms : List String) : String :=
  match ms with
  | [] => ""
  | _ => ", " ++ commaJoin ms

theorem commaJoin_cons (s : String) (l : List String) :
    commaJoin (s :: l) = s ++ tailStr l := by
  cases l with
  | nil => simp [commaJoin, tailStr, String.append_empty]
  | cons a as => simp [commaJoin, tailStr, String.append_assoc]

theorem tailStr_cons (s : String) (l : List String) :
    tailStr (s :: l) = ", " ++ (s ++ tailStr l) := by
  rw [show tailStr (s :: l) = ", " ++ commaJoin (s :: l) from rfl, commaJoin_cons]

/-- Folding the exported-function map over entries none of which have the
searched name leaves the accumulator unchanged. -/
theorem lookupFn_foldl_of_not_mem (n : String) :
    ∀ (l : List (String × FunctionType)) (acc : Option FunctionType),
      (∀ t, (n, t) ∉ l) →
      l.foldl (fun acc f => if f.1 = n then some f.2 else acc) acc = acc := by
  intro l
  induction l with
  | nil => intro acc _; rfl
  | cons f fs ih =>
    intro acc hnot
    rw [List.foldl_cons]
    by_cases hf : f.1 = n
    · exfalso
      exact hnot f.2 (by rw [show (n, f.2) = f from by rw [← hf]]; exact List.mem_cons_self f fs)
    · rw [if_neg hf]
      exact ih acc fun t ht => hnot t (List.mem_cons_of_mem f ht)

/-- Under distinct export names, the exported-function map contains exactly
the (name, type) pairs of the export list. -/
theorem lookupFn_eq_some (exported : List (String × FunctionType))
    (hnd : (exported.map Prod.fst).Nodup) (n : String) (t : FunctionType) :
    lookupFn exported n = some t ↔ (n, t) ∈ exported := by
  induction exported with
  | nil => simp [lookupFn]
  | cons f fs ih =>
    rw [List.map_cons, List.nodup_cons] at hnd
    obtain ⟨hf, hnd'⟩ := hnd
    unfold lookupFn
    rw [List.foldl_cons]
    by_cases h : f.1 = n
    · rw [if_pos h]
      have hnone : ∀ u, (n, u) ∉ fs := by
        intro u hu
        have hin : n ∈ fs.map Prod.fst := List.mem_map_of_mem Prod.fst hu
        rw [← h] at hin
        exact hf hin
      rw [lookupFn_foldl_of_not_mem n fs (some f.2) hnone]
      constructor
      · intro hsome
        rw [show f = (n, t) from by
          cases f
          simp only [Option.some.injEq] at hsome
          simp_all]
        exact List.mem_cons_self _ _
      · intro hmem
        rcases List.mem_cons.mp hmem with heq | hmem'
        · rw [← heq]
        · exact absurd hmem' (hnone t)
    · rw [if_neg h]
      have : fs.foldl (fun acc f => if f.1 = n then some f.2 else acc) none
          = lookupFn fs n := rfl
      rw [this, ih hnd']
      constructor
      · exact fun hm => List.mem_cons_of_mem f hm
      · intro hmem
        rcases List.mem_cons.mp hmem with heq | hmem'
        · exact absurd (congrArg Prod.fst heq.symm) h
        · exact hmem'

/-- Under distinct export names, the membership test of the source loop
(name lookup plus structural type equality) agrees with the
specification-side "implemented" predicate. -/
theorem step_cond_eq (exported : List (String × FunctionType))
    (hnd : (exported.map Prod.fst).Nodup) (e : String × FunctionType) :
    ((lookupFn exported e.1).map fun t => decide (t = e.2)).getD false
      = specImplemented exported e := by
  cases hl : lookupFn exported e.1 with
  | none =>
    have hmem : e ∉ exported := by
      intro hmem
      have : lookupFn exported e.1 = some e.2 :=
        (lookupFn_eq_some exported hnd e.1 e.2).mpr (by simpa using hmem)
      rw [hl] at this
      exact Option.noConfusion this
    simp [specImplemented, hmem]
  | some t =>
    by_cases ht : t = e.2
    · subst ht
      have hmem : e ∈ exported := by
        have hx := (lookupFn_eq_some exported hnd e.1 e.2).mp hl
        simpa using hx
      simp [specImplemented, hmem]
    · have hmem : e ∉ exported := by
        intro hmem
        have : lookupFn exported e.1 = some e.2 :=
          (lookupFn_eq_some exported hnd e.1 e.2).mpr (by simpa using hmem)
        rw [hl] at this
        exact ht (by simpa using this)
      simp [specImplemented, hmem, ht]

/-- Once the loop has recorded a first failure, folding the rest appends
exactly the renderings of the remaining missing entries, comma-separated. -/
theorem validate_foldl_true (exported : List (String × FunctionType))
    (hnd : (exported.map Prod.fst).Nodup) :
    ∀ (expected : List (String × FunctionType)) (msg : String),
      expected.foldl (validate_step exported) (msg, true)
        = (msg ++ tailStr ((specMissing exported expected).map renderEntry), true) := by
  intro expected
  induction expected with
  | nil => intro msg; simp [specMissing, tailStr, String.append_empty]
  | cons e es ih =>
    intro msg
    rw [List.foldl_cons]
    by_cases himp : specImplemented exported e = true
    · have hstep : validate_step exported (msg, true) e = (msg, true) := by
        unfold validate_step
        rw [step_cond_eq exported hnd, himp]
        rfl
      rw [hstep, ih]
      have : specMissing exported (e :: es) = specMissing exported es := by
        simp [specMissing, List.filter_cons, himp]
      rw [this]
    · rw [Bool.not_eq_true] at himp
      have hstep : validate_step exported (msg, true) e
          = (msg ++ ", " ++ renderEntry e, true) := by
        unfold validate_step
        rw [step_cond_eq exported hnd, himp]
        rfl
      rw [hstep, ih]
      have hms : specMissing exported (e :: es) = e :: specMissing exported es := by
        simp [specMissing, List.filter_cons, himp]
      rw [hms, List.map_cons, tailStr_cons]
      refine congrArg₂ Prod.mk ?_ rfl
      rw [String.append_assoc, String.append_assoc]

/-- The comparison loop of `do_validate_interface` returns `none` exactly
when no expected entry is missing, and otherwise the single message listing
every missing or mismatched entry, comma-separated, in the order the
expected interface was given. -/
theorem validate_core_spec (exported expected : List (String × FunctionType))
    (hnd : (exported.map Prod.fst).Nodup) :
    validate_core exported expected
      = (match specMissing exported expected with
         | [] => none
         | ms => some ("The following functions are not implemented: "
             ++ commaJoin (ms.map renderEntry))) := by
  unfold validate_core
  suffices h : ∀ (es : List (String × FunctionType)) (msg : String),
      (es.foldl (validate_step exported) (msg, false))
        = (match specMissing exported es with
           | [] => (msg, false)
           | ms => (msg ++ commaJoin (ms.map renderEntry), true)) by
    rw [h expected "The following functions are not implemented: "]
    cases hms : specMissing exported expected with
    | nil => rfl
    | cons m ms => rfl
  intro es
  induction es with
  | nil => intro msg; simp [specMissing]
  | cons e es ih =>
    intro msg
    rw [List.foldl_cons]
    by_cases himp : specImplemented exported e = true
    · have hstep : validate_step exported (msg, false) e = (msg, false) := by
        unfold validate_step
        rw [step_cond_eq exported hnd, himp]
        rfl
      rw [hstep, ih]
      have : specMissing exported (e :: es) = specMissing exported es := by
        simp [specMissing, List.filter_cons, himp]
      rw [this]
    · rw [Bool.not_eq_true] at himp
      have hstep : validate_step exported (msg, false) e
          = (msg ++ renderEntry e, true) := by
        unfold validate_step
        rw [step_cond_eq exported hnd, himp]
        rfl
      rw [hstep, validate_foldl_true exported hnd]
      have hms : specMissing exported (e :: es) = e :: specMissing exported es := by
        simp [specMissing, List.filter_cons, himp]
      rw [hms]
      dsimp only
      rw [List.map_cons, commaJoin_cons, String.append_assoc]

/-- C6: for every resolvable checksum and decodable expected interface
(against a module whose export names are distinct, as wasm guarantees),
`validate_interface` returns `none` iff every expected entry's name is
exported with a structurally equal function type; otherwise `some` of the
single message "The following functions are not implemented: " followed by
the missing or signature-mismatched entries rendered as "name: type",
comma-separated, in the order the expected interface was given. -/
theorem c6_validate_interface (vext : VExt) (cs eb : Bytes)
    (expected exported : List (String × FunctionType))
    (hcs : cs.length = 32)
    (hdec : vext.decodeInterface eb = .ok expected)
    (hmod : vext.get_module cs = .ok exported)
    (hnd : (exported.map Prod.fst).Nodup) :
    do_validate_interface vext (some cs) (some eb)
      = .ok (match specMissing exported expected with
             | [] => none
             | ms => some ("The following functions are not implemented: "
                 ++ commaJoin (ms.map renderEntry))) := by
  simp only [do_validate_interface, hcs, hdec, hmod]
  norm_num
  exact validate_core_spec exported expected hnd

/-- A concrete validate-interface collaborator realizing the spec scenario:
the module exports `transfer: (i32,i32) -> i64` while the caller expects
`transfer: (i32,i32) -> i32`. -/
def vextW : VExt :=
  { decodeInterface := fun _ => .ok [("transfer", ⟨[.i32, .i32], [.i32]⟩)]
    get_module := fun _ => .ok [("transfer", ⟨[.i32, .i32], [.i64]⟩)] }

/-- C6 witness: the signature-mismatch scenario yields exactly the expected
message. -/
theorem c6_validate_interface_witness :
    do_validate_interface vextW (some (List.replicate 32 0)) (some [])
      = .ok (some
          "The following functions are not implemented: transfer: [I32, I32] -> [I32]") := by
  have h := c6_validate_interface vextW (List.replicate 32 0) []
    [("transfer", ⟨[.i32, .i32], [.i32]⟩)] [("transfer", ⟨[.i32, .i32], [.i64]⟩)]
    rfl rfl rfl (by simp)
  rw [h]
  rfl

end Wasmvm
